import Mathlib

set_option maxRecDepth 40000

/-!
Verification of the Kindle RSS digest generator.

The repository has two variants of the pipeline:
  * `kindle_digest.py` (the attachment variant): fetches feeds, scrapes full
    article bodies, renders a digest with a table of contents and sends the
    HTML as an e-mail attachment;
  * `Kindle_digest.py` (the inline variant): fetches feeds and renders the
    feed summaries inline, without full-body extraction or a table of
    contents.

This file gives a shallow embedding of both variants.  Network effects
(feed parsing, HTTP fetching, the SMTP session) are passed in as explicit
oracle arguments (`Except`-valued parse results, `String → Option String`
extraction functions, `EmailMessage → Except SmtpFailure Unit` senders),
and the wall-clock date read by the code is hoisted to a `today` string
parameter.  Python strings are modelled as Lean `String` (a wrapper around
`List Char`, matching Python's code-point semantics for `len` and slicing).
-/

/-! ## Python string primitives -/

/-- Whitespace test used by Python `str.strip()` (the ASCII whitespace
characters; the source never feeds exotic Unicode whitespace through
`strip`). -/
def pyIsSpace (c : Char) : Bool :=
  c = ' ' || c = '\t' || c = '\n' || c = '\r' || c = '\x0b' || c = '\x0c'

/-- Python `s.strip()`: drop leading and trailing whitespace. -/
def pyStrip (s : String) : String :=
  String.mk (((s.data.dropWhile pyIsSpace).reverse.dropWhile pyIsSpace).reverse)

/-- Python `len(s)` (counts code points, as Lean `String.data.length` does). -/
def pyLen (s : String) : Nat := s.data.length

/-- Python `s[:n]` for a nonnegative bound `n`. -/
def pySlice (s : String) (n : Nat) : String := String.mk (s.data.take n)

/-- Python `x or y` where `x` is an optional string (`None`/absent ↦ `none`):
`None` and the empty string are falsy, so they select `y`. -/
def pyOrStr : Option String → String → String
  | some s, y => if s = "" then y else s
  | none, y => y

/-- Python `''.join(parts)`: plain concatenation. -/
def strJoin : List String → String
  | [] => ""
  | s :: rest => s ++ strJoin rest

/-- State of the left-to-right scan that implements
`re.sub('<[^<]+?>', '', s)`:
  * `normal`: outside any candidate match;
  * `afterLt`: just consumed a `<` that may open a match (the regex then
    requires at least one character other than `<`);
  * `scanning pending`: consumed `<` plus the reversed buffer `pending`
    (at least one character, none of them `<`), looking for the first `>`
    that closes the non-greedy match. -/
inductive StripState where
  | normal : StripState
  | afterLt : StripState
  | scanning : List Char → StripState

/-- One-pass implementation of `re.sub('<[^<]+?>', '', s)`.  A match is a
`<`, then one or more characters other than `<` (non-greedy, so it ends at
the first `>` after at least one such character), then `>`.  On a failed
candidate (end of input, or a second `<` before any `>`), the buffered
characters are emitted literally and scanning restarts at the breaking
position — no match can start strictly inside the buffer because a match
must start with `<` and the buffer contains none. -/
def stripGo : StripState → List Char → List Char
  | StripState.normal, [] => []
  | StripState.normal, c :: cs =>
    if c = '<' then stripGo StripState.afterLt cs else c :: stripGo StripState.normal cs
  | StripState.afterLt, [] => ['<']
  | StripState.afterLt, c :: cs =>
    if c = '<' then '<' :: stripGo StripState.afterLt cs
    else stripGo (StripState.scanning [c]) cs
  | StripState.scanning pending, [] => '<' :: pending.reverse
  | StripState.scanning pending, c :: cs =>
    if c = '>' then stripGo StripState.normal cs
    else if c = '<' then ('<' :: pending.reverse) ++ stripGo StripState.afterLt cs
    else stripGo (StripState.scanning (c :: pending)) cs

/-- Python `re.sub('<[^<]+?>', '', s)`, the tag-removal step used by both
renderers (lines 242 and 273 of `kindle_digest.py`, line 118 of
`Kindle_digest.py`). -/
def stripTags (s : String) : String := String.mk (stripGo StripState.normal s.data)

/-- Does `s` contain a (leftmost) match of the tag pattern `<[^<]+?>`?
Equivalently: does the single-pass removal change the string? -/
def hasTagMatch (s : String) : Bool := stripTags s != s

/-- State-machine implementation of Python `s.split('\n\n')`:
`cur` is the reversed current piece, `sawNL` records a pending `'\n'` that
may start the two-character separator. -/
def splitGo : List Char → Bool → List Char → List (List Char)
  | cur, false, [] => [cur.reverse]
  | cur, false, c :: cs =>
    if c = '\n' then splitGo cur true cs else splitGo (c :: cur) false cs
  | cur, true, [] => ('\n' :: cur).reverse :: []
  | cur, true, c :: cs =>
    if c = '\n' then cur.reverse :: splitGo [] false cs
    else splitGo (c :: '\n' :: cur) false cs

/-- Python `s.split('\n\n')` (non-overlapping, left to right, empty pieces
kept). -/
def pySplitNN (s : String) : List String := (splitGo [] false s.data).map String.mk

/-- State-machine implementation of Python `s.replace('\n\n\n', '\n\n')`:
`p ∈ {0, 1, 2}` counts pending consecutive newlines; on the third
consecutive newline the match is replaced by two newlines and scanning
continues after it (non-overlapping, left to right). -/
def collapseGo : Nat → List Char → List Char
  | p, [] => List.replicate p '\n'
  | p, c :: cs =>
    if c = '\n' then
      if p = 2 then '\n' :: '\n' :: collapseGo 0 cs else collapseGo (p + 1) cs
    else List.replicate p '\n' ++ (c :: collapseGo 0 cs)

/-- Python `s.replace('\n\n\n', '\n\n')` (line 73 of `kindle_digest.py`). -/
def pyReplaceNNN (s : String) : String := String.mk (collapseGo 0 s.data)

/-- Python `'\n\n'.join(parts)`. -/
def pyJoinNN (parts : List String) : String :=
  String.mk (List.intercalate ['\n', '\n'] (parts.map String.data))

/-! ## Data model -/

/-- A raw feed entry as `feedparser` delivers it: every field may be absent
(`entry.get` is used with defaults for each of them).  `description` is the
secondary key consulted when `summary` is absent. -/
structure Entry where
  title : Option String
  link : Option String
  summary : Option String
  description : Option String
  published : Option String

/-- An article dictionary as built by `fetch_articles` of
`kindle_digest.py` (lines 91–97) and consumed by `create_html_digest`.
`title`, `link` and `published` are read by direct indexing in the
renderer, so they are plain strings; `summary` is read via
`article.get('summary', default)`, so absence of the key is representable;
`full_content` is `None` or the extracted body. -/
structure Article where
  title : String
  link : String
  summary : Option String
  published : String
  full_content : Option String

/-- One element of `all_feeds_articles`: the feed name plus its (possibly
empty) article list, as assembled by `main`. -/
structure FeedData where
  name : String
  articles : List Article

/-- An article dictionary of the inline variant (`Kindle_digest.py`,
lines 33–38): no `full_content` field, and `summary` is always present. -/
structure InlineArticle where
  title : String
  link : String
  summary : String
  published : String

/-- One feed of the inline variant. -/
structure InlineFeed where
  name : String
  articles : List InlineArticle

/-! ## Article Extractor (`fetch_full_article`, lines 67–78) -/

/-- The text cleanup of `fetch_full_article` applied to the extracted
paragraph texts (the `p.get_text()` results): strip each paragraph, drop
the empty ones, join with blank lines, then collapse triple newlines
(lines 70–73 of `kindle_digest.py`). -/
def text_content (paragraphs : List String) : String :=
  pyReplaceNNN (pyJoinNN ((paragraphs.map pyStrip).filter (fun p => p != "")))

/-- The substance threshold of `fetch_full_article` (lines 75–78): return
the cleaned text only when its length exceeds 200 characters, else `None`. -/
def fetch_full_article_core (paragraphs : List String) : Option String :=
  if pyLen (text_content paragraphs) > 200 then some (text_content paragraphs) else none

/-! ## Feed Reader -/

/-- The entry-to-article mapping of `fetch_articles` in `kindle_digest.py`
(lines 91–103): `entry.get` defaults for each field, and `full_content` is
set only when the link is truthy and the extraction oracle returns a truthy
(non-`None`, non-empty) result. -/
def mkArticle (extract : String → Option String) (e : Entry) : Article :=
  { title := e.title.getD "No title"
    link := e.link.getD ""
    summary := some (e.summary.getD (e.description.getD ""))
    published := e.published.getD "Unknown date"
    full_content :=
      if e.link.getD "" != "" then
        match extract (e.link.getD "") with
        | some c => if c = "" then none else some c
        | none => none
      else none }

/-- The `fetch_articles` function of `kindle_digest.py` (lines 84–116) with
the feed parse modelled as an `Except` oracle: on any failure it returns
the empty list, otherwise it maps at most `max_articles` entries in feed
order, appending one article per entry. -/
def fetch_articles (extract : String → Option String)
    (feed : Except String (List Entry)) (max_articles : Nat) : List Article :=
  match feed with
  | Except.error _ => []
  | Except.ok entries =>
    (entries.take max_articles).foldl (fun acc e => acc ++ [mkArticle extract e]) []

/-- The entry-to-article mapping of `fetch_articles` in `Kindle_digest.py`
(lines 33–38): same defaults except that the summary chain ends in the
literal `'No summary available'`. -/
def mkInlineArticle (e : Entry) : InlineArticle :=
  { title := e.title.getD "No title"
    link := e.link.getD ""
    summary := e.summary.getD (e.description.getD "No summary available")
    published := e.published.getD "Unknown date" }

/-- The `fetch_articles` function of `Kindle_digest.py` (lines 26–44). -/
def fetch_articles_inline (feed : Except String (List Entry)) (max_articles : Nat) :
    List InlineArticle :=
  match feed with
  | Except.error _ => []
  | Except.ok entries =>
    (entries.take max_articles).foldl (fun acc e => acc ++ [mkInlineArticle e]) []

/-! ## Renderer, attachment variant (`create_html_digest`, lines 118–296) -/

/-- The identifier string `f"article-{article_counter}"` (lines 238 and 267). -/
def articleId (n : Nat) : String := "article-" ++ Nat.repr n

/-- Content selected for a TOC entry (line 241):
`article.get('full_content') or article.get('summary', '')`. -/
def tocContent (a : Article) : String := pyOrStr a.full_content (a.summary.getD "")

/-- The short TOC summary (lines 240–243): strip tags, trim, and truncate to
150 characters with a `'...'` marker. -/
def tocShortSummary (a : Article) : String :=
  if pyLen (pyStrip (stripTags (tocContent a))) > 150 then
    pySlice (pyStrip (stripTags (tocContent a))) 150 ++ "..."
  else pyStrip (stripTags (tocContent a))

/-- The TOC item block (lines 245–250). -/
def tocItemHtml (aid : String) (a : Article) : String :=
  "\n                <div class=\"toc-item\">\n                    <a href=\"#" ++ aid ++
    "\" class=\"toc-title\">" ++ a.title ++
    "</a>\n                    <div class=\"toc-summary\">" ++ tocShortSummary a ++
    "</div>\n                </div>\n                "

/-- One iteration of the TOC loop (lines 229–250): feeds with no articles
emit nothing; otherwise a `<h3>` header is emitted and the global article
counter is incremented once per article, each article contributing a TOC
item anchored at `articleId` of its counter value. -/
def tocStep (acc : Nat × String) (fd : FeedData) : Nat × String :=
  if fd.articles.isEmpty then acc
  else
    fd.articles.foldl
      (fun a2 a => (a2.1 + 1, a2.2 ++ tocItemHtml (articleId (a2.1 + 1)) a))
      (acc.1, acc.2 ++ "<h3>" ++ fd.name ++ "</h3>\n")

/-- The complete TOC block (lines 226–252). -/
def tocSectionHtml (feeds : List FeedData) : String :=
  "\n<div class=\"toc\">\n<h2>Table of Contents</h2>\n" ++
    (feeds.foldl tocStep (0, "")).2 ++ "</div>\n"

/-- Content selected for an article body (line 270):
`article.get('full_content') or article.get('summary', 'Content not available')`. -/
def bodyContent (a : Article) : String :=
  pyOrStr a.full_content (a.summary.getD "Content not available")

/-- The paragraph pieces of an article body (lines 272–278): strip tags,
trim, split on blank lines, trim each piece and drop the empty ones. -/
def bodyParagraphs (a : Article) : List String :=
  ((pySplitNN (pyStrip (stripTags (bodyContent a)))).map pyStrip).filter (fun p => p != "")

/-- `formatted_content` (line 278): each surviving paragraph wrapped in a
`<p>` element. -/
def formattedContent (a : Article) : String :=
  strJoin ((bodyParagraphs a).map (fun p => "<p>" ++ p ++ "</p>"))

/-- The article body block (lines 280–289). -/
def articleBlockHtml (aid : String) (a : Article) : String :=
  "\n                <div class=\"article\" id=\"" ++ aid ++
    "\">\n                    <div class=\"article-title\">" ++ a.title ++
    "</div>\n                    <div class=\"article-meta\">" ++ a.published ++
    "</div>\n                    <div class=\"article-content\">\n                        " ++
    formattedContent a ++
    "\n                    </div>\n                    <a href=\"" ++ a.link ++
    "\" class=\"article-link\">Original article: " ++ a.link ++
    "</a>\n                </div>\n                "

/-- One iteration of the body loop (lines 257–289); `p.1` is the feed index
from `enumerate`, used only for the page-break divider class. -/
def bodyStep (acc : Nat × String) (p : Nat × FeedData) : Nat × String :=
  if p.2.articles.isEmpty then acc
  else
    p.2.articles.foldl
      (fun a2 a => (a2.1 + 1, a2.2 ++ articleBlockHtml (articleId (a2.1 + 1)) a))
      (acc.1,
        acc.2 ++ "\n<h2 class=\"" ++ (if p.1 > 0 then "source-divider" else "") ++ "\">" ++
          p.2.name ++ "</h2>\n")

/-- The concatenated body sections (lines 255–289); the counter is reset to
0 before this pass. -/
def bodySectionHtml (feeds : List FeedData) : String :=
  (feeds.enum.foldl bodyStep (0, "")).2

/-- The document header of `create_html_digest` (lines 122–223): doctype,
meta, embedded stylesheet, page title and date line, with `today`
interpolated where the f-string interpolates it. -/
def htmlHeader (today : String) : String :=
  "\n    <!DOCTYPE html>\n    <html>\n    <head>\n        <meta charset=\"UTF-8\">\n        <meta name=\"author\" content=\"Claude AI\">\n        <title>Daily News Digest - " ++
  today ++
  "</title>\n        <style>\n            body \x7b\n                font-family: Georgia, serif;\n                line-height: 1.6;\n                max-width: 800px;\n                margin: 0 auto;\n                padding: 20px;\n            \x7d\n            h1 \x7b\n                color: #333;\n                border-bottom: 3px solid #333;\n                padding-bottom: 10px;\n                page-break-after: avoid;\n            \x7d\n            h2 \x7b\n                color: #555;\n                margin-top: 40px;\n                border-bottom: 2px solid #ddd;\n                padding-bottom: 5px;\n                page-break-after: avoid;\n            \x7d\n            .article \x7b\n                margin-bottom: 40px;\n                padding-bottom: 20px;\n                border-bottom: 2px solid #ddd;\n                page-break-inside: avoid;\n            \x7d\n            .article-title \x7b\n                font-size: 20px;\n                font-weight: bold;\n                color: #000;\n                margin-bottom: 8px;\n                page-break-after: avoid;\n            \x7d\n            .article-meta \x7b\n                color: #666;\n                font-size: 14px;\n                margin-bottom: 15px;\n                font-style: italic;\n            \x7d\n            .article-content \x7b\n                color: #333;\n                text-align: justify;\n                margin-bottom: 15px;\n            \x7d\n            .article-link \x7b\n                color: #0066cc;\n                text-decoration: none;\n                font-size: 14px;\n                display: block;\n                margin-top: 10px;\n            \x7d\n            .source-divider \x7b\n                margin: 50px 0 30px 0;\n                page-break-before: always;\n            \x7d\n            .toc \x7b\n                margin: 30px 0;\n                padding: 20px;\n                background-color: #f9f9f9;\n                border: 1px solid #ddd;\n                page-break-after: always;\n            \x7d\n            .toc h3 \x7b\n                color: #333;\n                margin-top: 20px;\n                margin-bottom: 10px;\n                font-size: 18px;\n            \x7d\n            .toc-item \x7b\n                margin-bottom: 15px;\n                padding-bottom: 10px;\n                border-bottom: 1px solid #e0e0e0;\n            \x7d\n            .toc-title \x7b\n                font-weight: bold;\n                color: #0066cc;\n                text-decoration: none;\n                display: block;\n                margin-bottom: 5px;\n            \x7d\n            .toc-title:hover \x7b\n                text-decoration: underline;\n            \x7d\n            .toc-summary \x7b\n                font-size: 14px;\n                color: #666;\n                line-height: 1.4;\n            \x7d\n        </style>\n    </head>\n    <body>\n        <h1>Daily News Digest</h1>\n        <p style=\"color: #666; font-style: italic;\">" ++
  today ++ "</p>\n    "

/-- The closing lines of both digest builders (lines 291–294). -/
def htmlFooter : String := "\n    </body>\n    </html>\n    "

/-- The `create_html_digest` function of `kindle_digest.py` with the
wall-clock date hoisted to the `today` parameter: header, TOC block, body
sections, footer, concatenated in emission order. -/
def create_html_digest (today : String) (feeds : List FeedData) : String :=
  htmlHeader today ++ tocSectionHtml feeds ++ bodySectionHtml feeds ++ htmlFooter

/-! ## Projections of the two renderer passes used to state the TOC/body
identifier correspondence -/

/-- The TOC loop of lines 229–250 with the emitted HTML replaced by the
emitted `(identifier, article)` pairs; the counter logic is identical. -/
def tocPairsStep (acc : Nat × List (String × Article)) (fd : FeedData) :
    Nat × List (String × Article) :=
  if fd.articles.isEmpty then acc
  else
    fd.articles.foldl
      (fun a2 a => (a2.1 + 1, a2.2 ++ [(articleId (a2.1 + 1), a)])) acc

/-- The `(identifier, article)` pairs emitted by the TOC pass, in order. -/
def tocPairs (feeds : List FeedData) : List (String × Article) :=
  (feeds.foldl tocPairsStep (0, [])).2

/-- The body loop of lines 257–289 with the emitted HTML replaced by the
emitted `(identifier, article)` pairs; the counter is reset before the
pass and the `enumerate` index plays no role in identifiers. -/
def bodyPairsStep (acc : Nat × List (String × Article)) (p : Nat × FeedData) :
    Nat × List (String × Article) :=
  if p.2.articles.isEmpty then acc
  else
    p.2.articles.foldl
      (fun a2 a => (a2.1 + 1, a2.2 ++ [(articleId (a2.1 + 1), a)])) acc

/-- The `(identifier, article)` pairs emitted by the body pass, in order. -/
def bodyPairs (feeds : List FeedData) : List (String × Article) :=
  (feeds.enum.foldl bodyPairsStep (0, [])).2

/-- All articles of a run in document order (empty feeds contribute
nothing). -/
def articlesOf (feeds : List FeedData) : List Article :=
  (feeds.map (fun fd => fd.articles)).flatten

/-- Sequential identifier assignment: the articles of `l` paired with
`articleId (c+1), articleId (c+2), …`. -/
def numberFrom (c : Nat) : List Article → List (String × Article)
  | [] => []
  | a :: rest => (articleId (c + 1), a) :: numberFrom (c + 1) rest

/-- TOC items rendered from a numbered article run. -/
def tocItemsFrom (c : Nat) (l : List Article) : String :=
  strJoin ((numberFrom c l).map (fun p => tocItemHtml p.1 p.2))

/-- The TOC HTML of a feed list rendered from the sequential numbering
starting at counter `c`. -/
def tocChunks (c : Nat) : List FeedData → String
  | [] => ""
  | fd :: rest =>
    (if fd.articles.isEmpty then ""
     else "<h3>" ++ fd.name ++ "</h3>\n" ++ tocItemsFrom c fd.articles) ++
    tocChunks (c + fd.articles.length) rest

/-- Body blocks rendered from a numbered article run. -/
def bodyItemsFrom (c : Nat) (l : List Article) : String :=
  strJoin ((numberFrom c l).map (fun p => articleBlockHtml p.1 p.2))

/-- The body HTML of a feed list rendered from the sequential numbering
starting at counter `c`, with `idx` the `enumerate` index of the first
feed. -/
def bodyChunks (c idx : Nat) : List FeedData → String
  | [] => ""
  | fd :: rest =>
    (if fd.articles.isEmpty then ""
     else
       "\n<h2 class=\"" ++ (if idx > 0 then "source-divider" else "") ++ "\">" ++
         fd.name ++ "</h2>\n" ++ bodyItemsFrom c fd.articles) ++
    bodyChunks (c + fd.articles.length) (idx + 1) rest

/-! ## Renderer, inline variant (`Kindle_digest.py`, lines 46–135) -/

/-- The displayed summary of the inline variant (lines 115–119): strip tags,
then truncate to 500 characters with a `'...'` marker. -/
def inlineDisplaySummary (a : InlineArticle) : String :=
  if pyLen (stripTags a.summary) > 500 then pySlice (stripTags a.summary) 500 ++ "..."
  else stripTags a.summary

/-- The article block of the inline variant (lines 121–128). -/
def inlineArticleHtml (a : InlineArticle) : String :=
  "\n                <div class=\"article\">\n                    <div class=\"article-title\">" ++
    a.title ++ "</div>\n                    <div class=\"article-meta\">" ++ a.published ++
    "</div>\n                    <div class=\"article-summary\">" ++ inlineDisplaySummary a ++
    "</div>\n                    <a href=\"" ++ a.link ++
    "\" class=\"article-link\">Read full article →</a>\n                </div>\n                "

/-- One iteration of the inline variant's feed loop (lines 106–128). -/
def inlineFeedStep (acc : String) (fd : InlineFeed) : String :=
  if fd.articles.isEmpty then acc
  else
    fd.articles.foldl (fun s a => s ++ inlineArticleHtml a)
      (acc ++ "\n<h2>" ++ fd.name ++ "</h2>\n")

/-- The document header of the inline variant (lines 50–104). -/
def inlineHtmlHeader (today : String) : String :=
  "\n    <!DOCTYPE html>\n    <html>\n    <head>\n        <meta charset=\"UTF-8\">\n        <style>\n            body \x7b\n                font-family: Georgia, serif;\n                line-height: 1.6;\n                max-width: 800px;\n                margin: 0 auto;\n                padding: 20px;\n            \x7d\n            h1 \x7b\n                color: #333;\n                border-bottom: 3px solid #333;\n                padding-bottom: 10px;\n            \x7d\n            h2 \x7b\n                color: #555;\n                margin-top: 30px;\n                border-bottom: 2px solid #ddd;\n                padding-bottom: 5px;\n            \x7d\n            .article \x7b\n                margin-bottom: 25px;\n                padding-bottom: 15px;\n                border-bottom: 1px solid #eee;\n            \x7d\n            .article-title \x7b\n                font-size: 18px;\n                font-weight: bold;\n                color: #000;\n                margin-bottom: 5px;\n            \x7d\n            .article-meta \x7b\n                color: #666;\n                font-size: 14px;\n                margin-bottom: 10px;\n            \x7d\n            .article-summary \x7b\n                color: #333;\n                margin-bottom: 10px;\n            \x7d\n            .article-link \x7b\n                color: #0066cc;\n                text-decoration: none;\n                font-size: 14px;\n            \x7d\n        </style>\n    </head>\n    <body>\n        <h1>Daily News Digest</h1>\n        <p style=\"color: #666; font-style: italic;\">" ++
  today ++ "</p>\n    "

/-- The `create_html_digest` function of `Kindle_digest.py` with the
wall-clock date hoisted to the `today` parameter. -/
def create_html_digest_inline (today : String) (feeds : List InlineFeed) : String :=
  inlineHtmlHeader today ++ feeds.foldl inlineFeedStep "" ++ htmlFooter

/-! ## Delivery (`send_to_kindle`, lines 298–337 of `kindle_digest.py`) -/

/-- Sender and recipient configuration. -/
structure EmailConfig where
  kindle_email : String
  sender_email : String
  sender_password : String

/-- The message assembled by `send_to_kindle` (lines 302–319): headers, the
plain-text body and the named HTML attachment. -/
structure EmailMessage where
  sender : String
  recipient : String
  subject : String
  bodyText : String
  attachmentName : String
  attachmentContent : String

/-- Failures the SMTP session can raise (all caught by the `except` block). -/
inductive SmtpFailure where
  | authFailure : SmtpFailure
  | connectionFailure : SmtpFailure
  | relayRejection : SmtpFailure
  | otherFailure : SmtpFailure

/-- Message construction of `send_to_kindle` (lines 302–319); `today` is the
`'%B %d, %Y'` date and `ddmmyyyy` the `'%d-%m-%Y'` date used in the
attachment filename. -/
def buildMessage (config : EmailConfig) (html_content today ddmmyyyy : String) : EmailMessage :=
  { sender := config.sender_email
    recipient := config.kindle_email
    subject := "Daily News Digest - " ++ today
    bodyText := "Your daily news digest is attached."
    attachmentName := "Daily News Digest " ++ ddmmyyyy ++ ".html"
    attachmentContent := html_content }

/-- The `send_to_kindle` function (lines 298–337) with the SMTP session
modelled as an oracle: the whole body sits in a `try` block, so a failed
session is caught and reported as `false`, and a completed session returns
`true`. -/
def send_to_kindle (smtpSend : EmailMessage → Except SmtpFailure Unit)
    (config : EmailConfig) (html_content today ddmmyyyy : String) : Bool :=
  match smtpSend (buildMessage config html_content today ddmmyyyy) with
  | Except.ok _ => true
  | Except.error _ => false

/-- The feed loop of `main` (lines 346–356): every configured feed
contributes one `FeedData`, appended in configuration order, whatever its
parse outcome. -/
def runFeeds (extract : String → Option String)
    (feeds : List (String × Except String (List Entry) × Nat)) : List FeedData :=
  feeds.foldl
    (fun acc f => acc ++ [{ name := f.1, articles := fetch_articles extract f.2.1 f.2.2 }]) []

/-- The overall outcome of one run of `main` (lines 339–379): the digest is
rendered from the fetched feeds and the run succeeds exactly when delivery
does. -/
def runDigest (extract : String → Option String)
    (feeds : List (String × Except String (List Entry) × Nat))
    (smtpSend : EmailMessage → Except SmtpFailure Unit)
    (config : EmailConfig) (today ddmmyyyy : String) : Bool :=
  send_to_kindle smtpSend config (create_html_digest today (runFeeds extract feeds))
    today ddmmyyyy

/-! ## Decimal representation helper -/

/-- Specification of `Nat.repr`: most-significant-first decimal digit
characters.  Used to prove that distinct counters yield distinct article
identifier strings. -/
def decRep (n : Nat) : List Char :=
  if _h : n < 10 then [Nat.digitChar n]
  else decRep (n / 10) ++ [Nat.digitChar (n % 10)]
decreasing_by exact Nat.div_lt_self (by omega) (by omega)

/-! ## Concrete values used as witness inputs -/

/-- Article whose extraction returned nothing and whose feed summary is
`'Short summary text'` (the end-to-end fallback scenario of the spec). -/
def scenarioArticle : Article :=
  { title := "A", link := "http://x", summary := some "Short summary text",
    published := "Mon", full_content := none }

/-- Article with a non-empty extracted body. -/
def fullBodyArticle : Article :=
  { title := "A", link := "L", summary := some "S", published := "D",
    full_content := some "Full body text" }

/-- Article whose tag-stripped summary is 160 characters long. -/
def longSummaryArticle : Article :=
  { title := "A", link := "L", summary := some (String.mk (List.replicate 160 'a')),
    published := "D", full_content := none }

/-- Article whose summary leaves the residual tag `<b>` after the single
stripping pass: the removal of `<a>` inside `<<a>b>` glues the outer
brackets together. -/
def ceArticle : Article :=
  { title := "T", link := "L", summary := some "<<a>b>", published := "D",
    full_content := none }

/-- Article whose summary contains no angle brackets at all. -/
def cleanArticle : Article :=
  { title := "A", link := "L", summary := some "alpha beta", published := "D",
    full_content := none }

/-- Feed entry with every optional field absent. -/
def emptyEntry : Entry :=
  { title := none, link := none, summary := none, description := none, published := none }

/-- Feed entry with every field present. -/
def fullEntry : Entry :=
  { title := some "T", link := some "http://a", summary := some "S",
    description := some "DD", published := some "P" }

/-- Inline-variant article whose tag-free summary is 501 characters long. -/
def longInlineArticle : InlineArticle :=
  { title := "A", link := "L", summary := String.mk (List.replicate 501 'a'),
    published := "D" }

/-- Inline-variant article with a short summary. -/
def shortInlineArticle : InlineArticle :=
  { title := "A", link := "L", summary := "hi", published := "D" }

/-- A single extracted paragraph of 201 characters. -/
def para201 : List String := [String.mk (List.replicate 201 'a')]

/-- A single extracted paragraph of 200 characters. -/
def para200 : List String := [String.mk (List.replicate 200 'a')]

/-- A single extracted paragraph of 199 characters. -/
def para199 : List String := [String.mk (List.replicate 199 'a')]

/-- Concrete delivery configuration. -/
def cfgW : EmailConfig :=
  { kindle_email := "k@kindle.com", sender_email := "s@gmail.com", sender_password := "pw" }

/-- SMTP oracle that always fails authentication. -/
def failSend : EmailMessage → Except SmtpFailure Unit :=
  fun _ => Except.error SmtpFailure.authFailure

/-- SMTP oracle that always succeeds. -/
def okSend : EmailMessage → Except SmtpFailure Unit := fun _ => Except.ok ()

/-! ## Helper lemmas: strings and the tag stripper -/

/-- Python length distributes over concatenation. -/
theorem pyLen_append (s t : String) : pyLen (s ++ t) = pyLen s + pyLen t := by
  simp [pyLen, String.data_append]

/-- A scan in the `normal` state leaves a string without `<` unchanged. -/
theorem stripGo_normal_no_lt :
    ∀ l : List Char, (∀ c ∈ l, c ≠ '<') → stripGo StripState.normal l = l := by
  intro l
  induction l with
  | nil => intro _; rfl
  | cons c cs ih =>
    intro h
    have hc : c ≠ '<' := h c (List.mem_cons_self c cs)
    simp only [stripGo, if_neg hc]
    rw [ih (fun d hd => h d (List.mem_cons_of_mem c hd))]

/-- Tag stripping leaves a string without `<` unchanged. -/
theorem stripTags_eq_self_of_no_lt (s : String) (h : ∀ c ∈ s.data, c ≠ '<') :
    stripTags s = s := by
  have : stripGo StripState.normal s.data = s.data := stripGo_normal_no_lt s.data h
  cases s with
  | mk data => exact congrArg String.mk this

/-- A string unchanged by stripping contains no match of the tag pattern. -/
theorem hasTagMatch_eq_false_of_fixed (s : String) (h : stripTags s = s) :
    hasTagMatch s = false := by
  simp [hasTagMatch, h]

/-- Characters of the pieces produced by the blank-line splitter come from
the input, the current buffer, or are the newline of a pending separator. -/
theorem splitGo_mem_chars :
    ∀ (l cur : List Char) (saw : Bool) (p : List Char), p ∈ splitGo cur saw l →
      ∀ c ∈ p, c ∈ l ∨ c ∈ cur ∨ c = '\n' := by
  intro l
  induction l with
  | nil =>
    intro cur saw p hp c hc
    cases saw with
    | false =>
      simp only [splitGo, List.mem_singleton] at hp
      subst hp
      exact Or.inr (Or.inl (List.mem_reverse.mp hc))
    | true =>
      simp only [splitGo, List.mem_singleton, List.not_mem_nil, or_false] at hp
      subst hp
      rcases List.mem_cons.mp (List.mem_reverse.mp hc) with h | h
      · exact Or.inr (Or.inr h)
      · exact Or.inr (Or.inl h)
  | cons a l ih =>
    intro cur saw p hp c hc
    cases saw with
    | false =>
      simp only [splitGo] at hp
      by_cases ha : a = '\n'
      · rw [if_pos ha] at hp
        rcases ih cur true p hp c hc with h | h | h
        · exact Or.inl (List.mem_cons_of_mem a h)
        · exact Or.inr (Or.inl h)
        · exact Or.inr (Or.inr h)
      · rw [if_neg ha] at hp
        rcases ih (a :: cur) false p hp c hc with h | h | h
        · exact Or.inl (List.mem_cons_of_mem a h)
        · rcases List.mem_cons.mp h with h2 | h2
          · exact Or.inl (h2 ▸ List.mem_cons_self a l)
          · exact Or.inr (Or.inl h2)
        · exact Or.inr (Or.inr h)
    | true =>
      simp only [splitGo] at hp
      by_cases ha : a = '\n'
      · rw [if_pos ha] at hp
        rcases List.mem_cons.mp hp with h | h
        · subst h
          exact Or.inr (Or.inl (List.mem_reverse.mp hc))
        · rcases ih [] false p h c hc with h2 | h2 | h2
          · exact Or.inl (List.mem_cons_of_mem a h2)
          · exact absurd h2 (List.not_mem_nil c)
          · exact Or.inr (Or.inr h2)
      · rw [if_neg ha] at hp
        rcases ih (a :: '\n' :: cur) false p hp c hc with h | h | h
        · exact Or.inl (List.mem_cons_of_mem a h)
        · rcases List.mem_cons.mp h with h2 | h2
          · exact Or.inl (h2 ▸ List.mem_cons_self a l)
          · rcases List.mem_cons.mp h2 with h3 | h3
            · exact Or.inr (Or.inr h3)
            · exact Or.inr (Or.inl h3)
        · exact Or.inr (Or.inr h)

/-- Characters survive `pyStrip` only if they were already present. -/
theorem mem_data_pyStrip (s : String) (c : Char) (h : c ∈ (pyStrip s).data) :
    c ∈ s.data := by
  simp only [pyStrip] at h
  have h1 := List.mem_reverse.mp h
  have h2 := (List.dropWhile_sublist pyIsSpace).mem h1
  have h3 := List.mem_reverse.mp h2
  exact (List.dropWhile_sublist pyIsSpace).mem h3

/-- Characters of a `pySplitNN` piece come from the split string or are
newlines. -/
theorem mem_data_pySplitNN (s p : String) (hp : p ∈ pySplitNN s) (c : Char)
    (hc : c ∈ p.data) : c ∈ s.data ∨ c = '\n' := by
  simp only [pySplitNN, List.mem_map] at hp
  obtain ⟨l, hl, rfl⟩ := hp
  rcases splitGo_mem_chars s.data [] false l hl c hc with h | h | h
  · exact Or.inl h
  · exact absurd h (List.not_mem_nil c)
  · exact Or.inr h

/-! ## Helper lemmas: append-style folds -/

/-- A fold that appends one image per element is `map`. -/
theorem foldl_append_map {α β : Type} (f : α → β) :
    ∀ (l : List α) (acc : List β),
      l.foldl (fun a x => a ++ [f x]) acc = acc ++ l.map f := by
  intro l
  induction l with
  | nil => intro acc; simp
  | cons x xs ih => intro acc; simp [ih]

/-- On a successful parse, `fetch_articles` maps the first `n` entries. -/
theorem fetch_articles_ok (extract : String → Option String) (entries : List Entry)
    (n : Nat) :
    fetch_articles extract (Except.ok entries) n
      = (entries.take n).map (mkArticle extract) := by
  simp [fetch_articles, foldl_append_map]

/-- On a successful parse, the inline `fetch_articles` maps the first `n`
entries. -/
theorem fetch_articles_inline_ok (entries : List Entry) (n : Nat) :
    fetch_articles_inline (Except.ok entries) n
      = (entries.take n).map mkInlineArticle := by
  simp [fetch_articles_inline, foldl_append_map]

/-- The feed loop of `main` is a map over the configured feeds. -/
theorem runFeeds_eq_map (extract : String → Option String)
    (feeds : List (String × Except String (List Entry) × Nat)) :
    runFeeds extract feeds
      = feeds.map (fun f => { name := f.1, articles := fetch_articles extract f.2.1 f.2.2 }) := by
  simp [runFeeds, foldl_append_map]

/-! ## Helper lemmas: sequential numbering of articles -/

/-- Splitting a numbered run at a list boundary. -/
theorem numberFrom_append :
    ∀ (l1 l2 : List Article) (c : Nat),
      numberFrom c (l1 ++ l2) = numberFrom c l1 ++ numberFrom (c + l1.length) l2 := by
  intro l1
  induction l1 with
  | nil => intro l2 c; simp [numberFrom]
  | cons a l ih =>
    intro l2 c
    simp only [List.cons_append, numberFrom, List.length_cons, List.append_eq]
    rw [ih l2 (c + 1)]
    have h : c + 1 + l.length = c + (l.length + 1) := by omega
    rw [h]

/-- The identifiers of a numbered run are consecutive `articleId` values. -/
theorem numberFrom_map_fst :
    ∀ (l : List Article) (c : Nat),
      (numberFrom c l).map Prod.fst = (List.range' (c + 1) l.length).map articleId := by
  intro l
  induction l with
  | nil => intro c; simp [numberFrom]
  | cons a l ih =>
    intro c
    simp only [numberFrom, List.map_cons, List.length_cons, List.range'_succ, ih (c + 1)]

/-- The articles of a numbered run are the run itself. -/
theorem numberFrom_map_snd :
    ∀ (l : List Article) (c : Nat), (numberFrom c l).map Prod.snd = l := by
  intro l
  induction l with
  | nil => intro c; simp [numberFrom]
  | cons a l ih => intro c; simp [numberFrom, ih (c + 1)]

/-- The inner article loop of either pass, projected to pairs: it advances
the counter by the number of articles and appends the numbered run. -/
theorem innerPairsFold :
    ∀ (l : List Article) (c : Nat) (acc : List (String × Article)),
      l.foldl (fun a2 a => (a2.1 + 1, a2.2 ++ [(articleId (a2.1 + 1), a)])) (c, acc)
        = (c + l.length, acc ++ numberFrom c l) := by
  intro l
  induction l with
  | nil => intro c acc; simp [numberFrom]
  | cons a l ih =>
    intro c acc
    simp only [List.foldl_cons, ih (c + 1), numberFrom, List.length_cons, Prod.mk.injEq]
    constructor
    · omega
    · simp

/-- The inner article loop of either pass, at the HTML level: it advances
the counter by the number of articles and appends one rendered item per
numbered article. -/
theorem innerStringFold (itemFn : String → Article → String) :
    ∀ (l : List Article) (c : Nat) (s : String),
      l.foldl (fun a2 a => (a2.1 + 1, a2.2 ++ itemFn (articleId (a2.1 + 1)) a)) (c, s)
        = (c + l.length,
            s ++ strJoin ((numberFrom c l).map (fun p => itemFn p.1 p.2))) := by
  intro l
  induction l with
  | nil => intro c s; simp [numberFrom, strJoin, String.append_empty]
  | cons a l ih =>
    intro c s
    simp only [List.foldl_cons, ih (c + 1), numberFrom, List.map_cons, strJoin,
      List.length_cons, Prod.mk.injEq]
    constructor
    · omega
    · rw [String.append_assoc]

/-- The TOC pass, projected to pairs, numbers all articles sequentially from
the incoming counter. -/
theorem tocPairsFold :
    ∀ (feeds : List FeedData) (c : Nat) (acc : List (String × Article)),
      feeds.foldl tocPairsStep (c, acc)
        = (c + (articlesOf feeds).length, acc ++ numberFrom c (articlesOf feeds)) := by
  intro feeds
  induction feeds with
  | nil => intro c acc; simp [articlesOf, numberFrom]
  | cons fd rest ih =>
    intro c acc
    have hart : articlesOf (fd :: rest) = fd.articles ++ articlesOf rest := by
      simp [articlesOf]
    by_cases he : fd.articles.isEmpty
    · have hnil : fd.articles = [] := List.isEmpty_iff.mp he
      have hstep : tocPairsStep (c, acc) fd = (c, acc) := by
        simp [tocPairsStep, if_pos he]
      rw [List.foldl_cons, hstep, ih c acc, hart, hnil]
      simp
    · have hstep :
          tocPairsStep (c, acc) fd
            = (c + fd.articles.length, acc ++ numberFrom c fd.articles) := by
        simp [tocPairsStep, if_neg he, innerPairsFold]
      rw [List.foldl_cons, hstep, ih, hart, numberFrom_append]
      simp only [List.length_append, Prod.mk.injEq]
      constructor
      · omega
      · rw [List.append_assoc]

/-- The body pass, projected to pairs, numbers all articles sequentially
from the incoming counter, independently of the `enumerate` start index. -/
theorem bodyPairsFold :
    ∀ (feeds : List FeedData) (idx c : Nat) (acc : List (String × Article)),
      (List.enumFrom idx feeds).foldl bodyPairsStep (c, acc)
        = (c + (articlesOf feeds).length, acc ++ numberFrom c (articlesOf feeds)) := by
  intro feeds
  induction feeds with
  | nil => intro idx c acc; simp [articlesOf, numberFrom, List.enumFrom]
  | cons fd rest ih =>
    intro idx c acc
    have hart : articlesOf (fd :: rest) = fd.articles ++ articlesOf rest := by
      simp [articlesOf]
    by_cases he : fd.articles.isEmpty
    · have hnil : fd.articles = [] := List.isEmpty_iff.mp he
      have hstep : bodyPairsStep (c, acc) (idx, fd) = (c, acc) := by
        simp [bodyPairsStep, if_pos he]
      rw [List.enumFrom, List.foldl_cons, hstep, ih (idx + 1) c acc, hart, hnil]
      simp
    · have hstep :
          bodyPairsStep (c, acc) (idx, fd)
            = (c + fd.articles.length, acc ++ numberFrom c fd.articles) := by
        simp [bodyPairsStep, if_neg he, innerPairsFold]
      rw [List.enumFrom, List.foldl_cons, hstep, ih (idx + 1), hart, numberFrom_append]
      simp only [List.length_append, Prod.mk.injEq]
      constructor
      · omega
      · rw [List.append_assoc]

/-- The TOC pass emits exactly the chunks rendered from the sequential
numbering. -/
theorem tocStringFold :
    ∀ (feeds : List FeedData) (c : Nat) (s : String),
      feeds.foldl tocStep (c, s)
        = (c + (articlesOf feeds).length, s ++ tocChunks c feeds) := by
  intro feeds
  induction feeds with
  | nil => intro c s; simp [articlesOf, tocChunks, String.append_empty]
  | cons fd rest ih =>
    intro c s
    have hart : articlesOf (fd :: rest) = fd.articles ++ articlesOf rest := by
      simp [articlesOf]
    by_cases he : fd.articles.isEmpty
    · have hnil : fd.articles = [] := List.isEmpty_iff.mp he
      have hstep : tocStep (c, s) fd = (c, s) := by
        simp [tocStep, if_pos he]
      have hchunk : tocChunks c (fd :: rest) = tocChunks c rest := by
        simp [tocChunks, if_pos he, hnil, String.empty_append]
      rw [List.foldl_cons, hstep, ih c s, hart, hnil, hchunk]
      simp
    · have hstep :
          tocStep (c, s) fd
            = (c + fd.articles.length,
                s ++ ("<h3>" ++ fd.name ++ "</h3>\n" ++ tocItemsFrom c fd.articles)) := by
        simp only [tocStep, if_neg he, innerStringFold, tocItemsFrom, Prod.mk.injEq]
        constructor
        · trivial
        · simp [String.append_assoc]
      have hchunk :
          tocChunks c (fd :: rest)
            = ("<h3>" ++ fd.name ++ "</h3>\n" ++ tocItemsFrom c fd.articles) ++
                tocChunks (c + fd.articles.length) rest := by
        simp [tocChunks, if_neg he]
      rw [List.foldl_cons, hstep, ih, hart, hchunk]
      simp only [List.length_append, Prod.mk.injEq]
      constructor
      · omega
      · rw [String.append_assoc]

/-- The body pass emits exactly the chunks rendered from the sequential
numbering and the running `enumerate` index. -/
theorem bodyStringFold :
    ∀ (feeds : List FeedData) (idx c : Nat) (s : String),
      (List.enumFrom idx feeds).foldl bodyStep (c, s)
        = (c + (articlesOf feeds).length, s ++ bodyChunks c idx feeds) := by
  intro feeds
  induction feeds with
  | nil => intro idx c s; simp [articlesOf, bodyChunks, String.append_empty, List.enumFrom]
  | cons fd rest ih =>
    intro idx c s
    have hart : articlesOf (fd :: rest) = fd.articles ++ articlesOf rest := by
      simp [articlesOf]
    by_cases he : fd.articles.isEmpty
    · have hnil : fd.articles = [] := List.isEmpty_iff.mp he
      have hstep : bodyStep (c, s) (idx, fd) = (c, s) := by
        simp [bodyStep, if_pos he]
      have hchunk : bodyChunks c idx (fd :: rest) = bodyChunks c (idx + 1) rest := by
        simp [bodyChunks, if_pos he, hnil, String.empty_append]
      rw [List.enumFrom, List.foldl_cons, hstep, ih (idx + 1) c s, hart, hnil, hchunk]
      simp
    · have hstep :
          bodyStep (c, s) (idx, fd)
            = (c + fd.articles.length,
                s ++ ("\n<h2 class=\"" ++ (if idx > 0 then "source-divider" else "") ++
                  "\">" ++ fd.name ++ "</h2>\n" ++ bodyItemsFrom c fd.articles)) := by
        simp only [bodyStep, if_neg he, innerStringFold, bodyItemsFrom, Prod.mk.injEq]
        constructor
        · trivial
        · simp [String.append_assoc]
      have hchunk :
          bodyChunks c idx (fd :: rest)
            = ("\n<h2 class=\"" ++ (if idx > 0 then "source-divider" else "") ++ "\">" ++
                fd.name ++ "</h2>\n" ++ bodyItemsFrom c fd.articles) ++
                bodyChunks (c + fd.articles.length) (idx + 1) rest := by
        simp [bodyChunks, if_neg he]
      rw [List.enumFrom, List.foldl_cons, hstep, ih (idx + 1), hart, hchunk]
      simp only [List.length_append, Prod.mk.injEq]
      constructor
      · omega
      · rw [String.append_assoc]

/-! ## Helper lemmas: decimal representation and identifier injectivity -/

/-- Decimal digit characters are distinct for distinct digits. -/
theorem digitChar_inj_lt :
    ∀ m, m < 10 → ∀ n, n < 10 → Nat.digitChar m = Nat.digitChar n → m = n := by decide

/-- Unfolding `decRep` below ten. -/
theorem decRep_lt (n : Nat) (h : n < 10) : decRep n = [Nat.digitChar n] := by
  rw [decRep]
  simp [h]

/-- Unfolding `decRep` at ten or above. -/
theorem decRep_ge (n : Nat) (h : ¬ n < 10) :
    decRep n = decRep (n / 10) ++ [Nat.digitChar (n % 10)] := by
  rw [decRep]
  simp [h]

/-- A decimal representation is never empty. -/
theorem decRep_ne_nil (n : Nat) : decRep n ≠ [] := by
  by_cases h : n < 10
  · rw [decRep_lt n h]; simp
  · rw [decRep_ge n h]; simp

/-- With enough fuel, `Nat.toDigitsCore` computes `decRep` in front of its
accumulator. -/
theorem toDigitsCore_eq_decRep :
    ∀ (f n : Nat) (acc : List Char), 0 < f → n < 10 ^ f →
      Nat.toDigitsCore 10 f n acc = decRep n ++ acc := by
  intro f
  induction f with
  | zero => intro n acc h; omega
  | succ f ih =>
    intro n acc _ hlt
    simp only [Nat.toDigitsCore]
    by_cases hdiv : n / 10 = 0
    · have hn : n < 10 := (Nat.div_eq_zero_iff (by omega)).mp hdiv
      rw [if_pos hdiv, decRep_lt n hn, Nat.mod_eq_of_lt hn]
      rfl
    · have hf : 0 < f := by
        by_contra hf0
        have : f = 0 := by omega
        subst this
        simp [pow_one] at hlt
        omega
      have hn10 : ¬ n < 10 := by
        intro hn
        exact hdiv (Nat.div_eq_zero_iff (by omega) |>.mpr hn)
      have hdivlt : n / 10 < 10 ^ f := by
        rw [Nat.div_lt_iff_lt_mul (by omega : (0:Nat) < 10)]
        calc n < 10 ^ (f + 1) := hlt
        _ = 10 ^ f * 10 := by rw [pow_succ]
      rw [if_neg hdiv, ih (n / 10) (Nat.digitChar (n % 10) :: acc) hf hdivlt,
        decRep_ge n hn10, List.append_assoc]
      rfl

/-- Any natural number is below `10 ^ (n + 1)`. -/
theorem lt_ten_pow_succ (n : Nat) : n < 10 ^ (n + 1) := by
  calc n < 2 ^ n := Nat.lt_two_pow n
  _ ≤ 10 ^ n := Nat.pow_le_pow_left (by omega) n
  _ ≤ 10 ^ (n + 1) := Nat.pow_le_pow_right (by omega) (Nat.le_succ n)

/-- The decimal printer of the runtime agrees with `decRep`. -/
theorem natRepr_eq_decRep (n : Nat) : Nat.repr n = String.mk (decRep n) := by
  show (Nat.toDigits 10 n).asString = String.mk (decRep n)
  rw [Nat.toDigits, toDigitsCore_eq_decRep (n + 1) n [] (Nat.succ_pos n) (lt_ten_pow_succ n)]
  simp [List.asString]

/-- The decimal representation determines the number. -/
theorem decRep_inj : ∀ m : Nat, ∀ n : Nat, decRep m = decRep n → m = n := by
  intro m
  induction m using Nat.strong_induction_on with
  | _ m ih =>
    intro n h
    by_cases hm : m < 10 <;> by_cases hn : n < 10
    · rw [decRep_lt m hm, decRep_lt n hn] at h
      exact digitChar_inj_lt m hm n hn (List.singleton_injective h)
    · rw [decRep_lt m hm, decRep_ge n hn] at h
      have hlen := congrArg List.length h
      simp at hlen
      exact absurd hlen.symm.symm (decRep_ne_nil (n / 10))
    · rw [decRep_ge m hm, decRep_lt n hn] at h
      have hlen := congrArg List.length h
      simp at hlen
      exact absurd hlen (decRep_ne_nil (m / 10))
    · rw [decRep_ge m hm, decRep_ge n hn] at h
      have hrev := congrArg List.reverse h
      simp only [List.reverse_append, List.reverse_singleton, List.singleton_append,
        List.cons.injEq] at hrev
      obtain ⟨hdig, htail⟩ := hrev
      have hdivs : m / 10 = n / 10 :=
        ih (m / 10) (Nat.div_lt_self (by omega) (by omega)) (n / 10)
          (List.reverse_injective htail)
      have hmods : m % 10 = n % 10 :=
        digitChar_inj_lt (m % 10) (Nat.mod_lt m (by omega)) (n % 10)
          (Nat.mod_lt n (by omega)) hdig
      have hm10 := Nat.div_add_mod m 10
      have hn10 := Nat.div_add_mod n 10
      omega

/-- The runtime decimal printer is injective. -/
theorem natRepr_injective : Function.Injective Nat.repr := by
  intro m n h
  rw [natRepr_eq_decRep, natRepr_eq_decRep] at h
  exact decRep_inj m n (congrArg String.data h)

/-- Distinct counters yield distinct article identifier strings. -/
theorem articleId_injective : Function.Injective articleId := by
  intro m n h
  have h2 : ("article-" ++ Nat.repr m).data = ("article-" ++ Nat.repr n).data :=
    congrArg String.data h
  rw [String.data_append, String.data_append] at h2
  have h3 : (Nat.repr m).data = (Nat.repr n).data := List.append_cancel_left h2
  have h4 : Nat.repr m = Nat.repr n := by
    cases hm : Nat.repr m with
    | mk dm =>
      cases hn : Nat.repr n with
      | mk dn =>
        rw [hm, hn] at h3
        exact congrArg String.mk h3
  exact natRepr_injective h4

/-! ## Claim theorems -/

/-- C1: For every input sequence of feed results, the TOC pass and the body
pass assign the identifiers `article-1` … `article-N` (with `N` the total
article count) sequentially in section-then-article order starting at 1;
the assignment is the same in both passes, the identifiers are pairwise
distinct, and the emitted HTML of each pass is exactly the rendering of
that shared numbering, so each TOC anchor `#article-i` targets the unique
body block carrying `id="article-i"`, which holds the same article. -/
theorem toc_body_identifier_correspondence (feeds : List FeedData) :
    tocPairs feeds = bodyPairs feeds ∧
    tocPairs feeds = numberFrom 0 (articlesOf feeds) ∧
    (tocPairs feeds).map Prod.fst
      = (List.range' 1 (articlesOf feeds).length).map articleId ∧
    ((tocPairs feeds).map Prod.fst).Nodup ∧
    (tocPairs feeds).map Prod.snd = articlesOf feeds ∧
    (feeds.foldl tocStep (0, "")).2 = tocChunks 0 feeds ∧
    (feeds.enum.foldl bodyStep (0, "")).2 = bodyChunks 0 0 feeds := by
  have htoc : tocPairs feeds = numberFrom 0 (articlesOf feeds) := by
    simp [tocPairs, tocPairsFold]
  have hbody : bodyPairs feeds = numberFrom 0 (articlesOf feeds) := by
    have henum : feeds.enum = List.enumFrom 0 feeds := rfl
    simp [bodyPairs, henum, bodyPairsFold]
  refine ⟨htoc.trans hbody.symm, htoc, ?_, ?_, ?_, ?_, ?_⟩
  · rw [htoc, numberFrom_map_fst]
  · rw [htoc, numberFrom_map_fst]
    exact List.Nodup.map articleId_injective (List.nodup_range' (0 + 1) _)
  · rw [htoc, numberFrom_map_snd]
  · rw [tocStringFold feeds 0 ""]
    exact String.empty_append _
  · have henum : feeds.enum = List.enumFrom 0 feeds := rfl
    rw [henum, bodyStringFold feeds 0 0 ""]
    exact String.empty_append _

/-- C2: The content rendered in an article's body block is the extracted
full body when present and non-empty, else the feed summary, else the
literal placeholder `'Content not available'` (reached only when the
summary key is absent); the TOC content uses the same chain ending in the
empty string; and an article with no extracted content but summary
`'Short summary text'` renders that summary wrapped in a paragraph, not
the placeholder. -/
theorem content_fallback_chain (a : Article) :
    (∀ b : String, a.full_content = some b → b ≠ "" →
      bodyContent a = b ∧ tocContent a = b) ∧
    ((a.full_content = none ∨ a.full_content = some "") →
      ((∀ s : String, a.summary = some s → bodyContent a = s ∧ tocContent a = s) ∧
       (a.summary = none →
         bodyContent a = "Content not available" ∧ tocContent a = ""))) ∧
    (a.full_content = none → a.summary = some "Short summary text" →
      formattedContent a = "<p>Short summary text</p>") := by
  refine ⟨?_, ?_, ?_⟩
  · intro b hb hne
    constructor <;> simp [bodyContent, tocContent, pyOrStr, hb, hne]
  · intro hfc
    constructor
    · intro s hs
      rcases hfc with h | h <;>
        constructor <;> simp [bodyContent, tocContent, pyOrStr, h, hs]
    · intro hs
      rcases hfc with h | h <;>
        constructor <;> simp [bodyContent, tocContent, pyOrStr, h, hs]
  · intro h1 h2
    have hbc : bodyContent a = "Short summary text" := by
      simp [bodyContent, pyOrStr, h1, h2]
    simp only [formattedContent, bodyParagraphs, hbc]
    decide

/-- Witness for C2 at concrete articles. -/
theorem content_fallback_chain_witness :
    bodyContent scenarioArticle = "Short summary text" ∧
    formattedContent scenarioArticle = "<p>Short summary text</p>" ∧
    bodyContent fullBodyArticle = "Full body text" := by
  refine ⟨?_, ?_, ?_⟩
  · exact (((content_fallback_chain scenarioArticle).2.1 (Or.inl rfl)).1
      "Short summary text" rfl).1
  · exact (content_fallback_chain scenarioArticle).2.2 rfl rfl
  · exact ((content_fallback_chain fullBodyArticle).1 "Full body text" rfl (by decide)).1

/-- C3: With `s` the tag-stripped and trimmed content string of length `L`,
the short TOC summary equals `s` when `L ≤ 150` and the first 150
characters of `s` followed by `'...'` when `L > 150`. -/
theorem toc_truncation_law (a : Article) :
    (pyLen (pyStrip (stripTags (tocContent a))) ≤ 150 →
       tocShortSummary a = pyStrip (stripTags (tocContent a))) ∧
    (150 < pyLen (pyStrip (stripTags (tocContent a))) →
       tocShortSummary a
           = pySlice (pyStrip (stripTags (tocContent a))) 150 ++ "..." ∧
         pyLen (pySlice (pyStrip (stripTags (tocContent a))) 150) = 150) := by
  constructor
  · intro h
    have h2 : ¬ (pyLen (pyStrip (stripTags (tocContent a))) > 150) := by omega
    simp [tocShortSummary, h2]
  · intro h
    constructor
    · simp [tocShortSummary, h]
    · have h2 : 150 < (pyStrip (stripTags (tocContent a))).data.length := h
      have h3 : (pyStrip (stripTags (tocContent a))).length
          = (pyStrip (stripTags (tocContent a))).data.length := rfl
      simp [pySlice, pyLen, List.length_take]
      omega

/-- Witness for C3 at a short and a long concrete article. -/
theorem toc_truncation_law_witness :
    tocShortSummary scenarioArticle = "Short summary text" ∧
    tocShortSummary longSummaryArticle
      = pySlice (pyStrip (stripTags (tocContent longSummaryArticle))) 150 ++ "..." ∧
    pyLen (pySlice (pyStrip (stripTags (tocContent longSummaryArticle))) 150) = 150 := by
  refine ⟨?_, ?_, ?_⟩
  · exact ((toc_truncation_law scenarioArticle).1 (by decide)).trans (by decide)
  · exact ((toc_truncation_law longSummaryArticle).2 (by decide)).1
  · exact ((toc_truncation_law longSummaryArticle).2 (by decide)).2

/-- C4: The extractor returns the cleaned joined paragraph text exactly when
its length exceeds 200 characters, and returns nothing when the length is
at most 200. -/
theorem extraction_substance_threshold (paragraphs : List String) :
    (fetch_full_article_core paragraphs = some (text_content paragraphs) ↔
       200 < pyLen (text_content paragraphs)) ∧
    (pyLen (text_content paragraphs) ≤ 200 →
      fetch_full_article_core paragraphs = none) := by
  constructor
  · constructor
    · intro h
      by_contra hn
      have h2 : ¬ (pyLen (text_content paragraphs) > 200) := by omega
      simp [fetch_full_article_core, h2] at h
    · intro h
      simp [fetch_full_article_core, h]
  · intro h
    have h2 : ¬ (pyLen (text_content paragraphs) > 200) := by omega
    simp [fetch_full_article_core, h2]

/-- Witness for C4 at paragraph lists of lengths 201, 200 and 199. -/
theorem extraction_substance_threshold_witness :
    fetch_full_article_core para201 = some (text_content para201) ∧
    fetch_full_article_core para200 = none ∧
    fetch_full_article_core para199 = none ∧
    pyLen (text_content para201) = 201 := by
  refine ⟨?_, ?_, ?_, by decide⟩
  · exact (extraction_substance_threshold para201).1.mpr (by decide)
  · exact (extraction_substance_threshold para200).2 (by decide)
  · exact (extraction_substance_threshold para199).2 (by decide)

/-- C5 counterexample: the single stripping pass is not idempotent, so the
rendered output can retain a literal tag sequence originating from source
content: the summary `'<<a>b>'` strips to `'<b>'`, and the rendered body
block content is `'<p><b></p>'`, which still contains the source-derived
tag `<b>`. -/
theorem tag_stripping_counterexample :
    stripTags "<<a>b>" = "<b>" ∧
    bodyContent ceArticle = "<<a>b>" ∧
    formattedContent ceArticle = "<p><b></p>" ∧
    hasTagMatch "<b>" = true ∧
    hasTagMatch (formattedContent ceArticle) = true := by
  exact ⟨by decide, by decide, by decide, by decide, by decide⟩

/-- C5 (amended): both the TOC summary and the body paragraphs are computed
from content passed through the single left-to-right removal of
`<[^<]+?>` matches; a string in which no `<` remains after stripping
contains no tag sequence, and in that case no paragraph embedded in the
body carries a `<` either — but nested brackets can leave residual tag
sequences, as the counterexample shows. -/
theorem tag_stripping_single_pass (s : String) (a : Article) :
    ((∀ c ∈ s.data, c ≠ '<') → stripTags s = s ∧ hasTagMatch s = false) ∧
    ((∀ c ∈ (stripTags s).data, c ≠ '<') → hasTagMatch (stripTags s) = false) ∧
    ((∀ c ∈ (stripTags (bodyContent a)).data, c ≠ '<') →
      ∀ p ∈ bodyParagraphs a, ∀ c ∈ p.data, c ≠ '<') := by
  refine ⟨?_, ?_, ?_⟩
  · intro h
    have h1 := stripTags_eq_self_of_no_lt s h
    exact ⟨h1, hasTagMatch_eq_false_of_fixed s h1⟩
  · intro h
    exact hasTagMatch_eq_false_of_fixed _ (stripTags_eq_self_of_no_lt _ h)
  · intro h p hp c hc
    simp only [bodyParagraphs, List.mem_filter, List.mem_map] at hp
    obtain ⟨⟨q, hq, rfl⟩, _⟩ := hp
    have hcq : c ∈ q.data := mem_data_pyStrip q c hc
    rcases mem_data_pySplitNN (pyStrip (stripTags (bodyContent a))) q hq c hcq with h2 | h2
    · exact h c (mem_data_pyStrip _ c h2)
    · rw [h2]; decide

/-- Witness for the amended C5 at tag-free content. -/
theorem tag_stripping_single_pass_witness :
    stripTags "alpha beta" = "alpha beta" ∧
    hasTagMatch "alpha beta" = false ∧
    (∀ p ∈ bodyParagraphs cleanArticle, ∀ c ∈ p.data, c ≠ '<') := by
  refine ⟨?_, ?_, ?_⟩
  · exact ((tag_stripping_single_pass "alpha beta" cleanArticle).1 (by decide)).1
  · exact ((tag_stripping_single_pass "alpha beta" cleanArticle).1 (by decide)).2
  · exact (tag_stripping_single_pass "alpha beta" cleanArticle).2.2 (by decide)

/-- C6 counterexample: in the inline variant an entry with neither summary
nor description maps to the literal `'No summary available'`, not to the
empty string the claim states. -/
theorem summary_default_counterexample :
    fetch_articles_inline (Except.ok [emptyEntry]) 5
      = [{ title := "No title", link := "", summary := "No summary available",
           published := "Unknown date" }] ∧
    ("No summary available" : String) ≠ "" := by
  exact ⟨rfl, by decide⟩

/-- C6 (amended): each fetch takes at most `max_articles` entries in feed
order and maps them with defaults `'No title'`, `''` (link),
`'Unknown date'` and a summary falling back to the description; the final
summary default is the empty string in the attachment variant but the
literal `'No summary available'` in the inline variant. -/
theorem feed_entry_mapping (extract : String → Option String) (entries : List Entry)
    (n : Nat) (e : Entry) :
    fetch_articles extract (Except.ok entries) n
      = (entries.take n).map (mkArticle extract) ∧
    (fetch_articles extract (Except.ok entries) n).length = min n entries.length ∧
    fetch_articles_inline (Except.ok entries) n
      = (entries.take n).map mkInlineArticle ∧
    (mkArticle extract e).title = e.title.getD "No title" ∧
    (mkArticle extract e).link = e.link.getD "" ∧
    (mkArticle extract e).summary = some (e.summary.getD (e.description.getD "")) ∧
    (mkArticle extract e).published = e.published.getD "Unknown date" ∧
    (mkInlineArticle e).summary
      = e.summary.getD (e.description.getD "No summary available") ∧
    (e.summary = none → e.description = none →
      (mkArticle extract e).summary = some "" ∧
      (mkInlineArticle e).summary = "No summary available") := by
  refine ⟨fetch_articles_ok extract entries n, ?_,
    fetch_articles_inline_ok entries n, rfl, rfl, rfl, rfl, rfl, ?_⟩
  · rw [fetch_articles_ok]
    simp [List.length_take]
  · intro h1 h2
    constructor <;> simp [mkArticle, mkInlineArticle, h1, h2]

/-- Witness for the amended C6 at concrete entries. -/
theorem feed_entry_mapping_witness :
    fetch_articles_inline (Except.ok [emptyEntry, fullEntry]) 1
      = [mkInlineArticle emptyEntry] ∧
    (mkArticle (fun _ => none) emptyEntry).summary = some "" ∧
    (mkInlineArticle emptyEntry).summary = "No summary available" := by
  refine ⟨?_, ?_, ?_⟩
  · exact ((feed_entry_mapping (fun _ => none) [emptyEntry, fullEntry] 1
      emptyEntry).2.2.1).trans rfl
  · exact ((feed_entry_mapping (fun _ => none) [] 0
      emptyEntry).2.2.2.2.2.2.2.2 rfl rfl).1
  · exact ((feed_entry_mapping (fun _ => none) [] 0
      emptyEntry).2.2.2.2.2.2.2.2 rfl rfl).2

/-- C7: A failed feed fetch yields the empty article sequence (never null —
the return type is a list), only the error is recorded, and the feed loop
of `main` keeps processing every other feed: a failing feed in the middle
contributes exactly one feed block with an empty article list. -/
theorem feed_failure_isolation (extract : String → Option String) (err : String)
    (n : Nat) (fname : String)
    (pre post : List (String × Except String (List Entry) × Nat)) :
    fetch_articles extract (Except.error err) n = [] ∧
    fetch_articles_inline (Except.error err) n = [] ∧
    runFeeds extract (pre ++ (fname, Except.error err, n) :: post)
      = runFeeds extract pre ++
          { name := fname, articles := [] } :: runFeeds extract post ∧
    (runFeeds extract (pre ++ (fname, Except.error err, n) :: post)).length
      = pre.length + 1 + post.length := by
  refine ⟨rfl, rfl, ?_, ?_⟩
  · rw [runFeeds_eq_map, runFeeds_eq_map, runFeeds_eq_map, List.map_append, List.map_cons]
    rfl
  · rw [runFeeds_eq_map]
    simp only [List.length_map, List.length_append, List.length_cons]
    omega

/-- C8: Rendering is deterministic — equal digest inputs (the fixed date
header and the feed results) produce byte-identical HTML strings. -/
theorem render_deterministic (t1 t2 : String) (f1 f2 : List FeedData)
    (ht : t1 = t2) (hf : f1 = f2) :
    create_html_digest t1 f1 = create_html_digest t2 f2 := by
  rw [ht, hf]

/-- Witness for C8 at a concrete date and feed list. -/
theorem render_deterministic_witness :
    create_html_digest "October 12, 2025" [] = create_html_digest "October 12, 2025" [] :=
  render_deterministic "October 12, 2025" "October 12, 2025" [] [] rfl rfl

/-- C9: A delivery failure of any kind is caught inside `send_to_kindle`,
which returns `false` instead of propagating; a completed session returns
`true`; and the run's overall outcome depends only on the delivery
outcome, not on the feed results. -/
theorem delivery_boolean_outcome (smtpSend : EmailMessage → Except SmtpFailure Unit)
    (config : EmailConfig) (html today ddmmyyyy : String)
    (extract : String → Option String)
    (feeds1 feeds2 : List (String × Except String (List Entry) × Nat))
    (r : Except SmtpFailure Unit) :
    (∀ e : SmtpFailure,
      smtpSend (buildMessage config html today ddmmyyyy) = Except.error e →
        send_to_kindle smtpSend config html today ddmmyyyy = false) ∧
    (smtpSend (buildMessage config html today ddmmyyyy) = Except.ok () →
      send_to_kindle smtpSend config html today ddmmyyyy = true) ∧
    ((∀ m : EmailMessage, smtpSend m = r) →
      runDigest extract feeds1 smtpSend config today ddmmyyyy
        = runDigest extract feeds2 smtpSend config today ddmmyyyy) := by
  refine ⟨?_, ?_, ?_⟩
  · intro e he
    simp [send_to_kindle, he]
  · intro h
    simp [send_to_kindle, h]
  · intro h
    simp [runDigest, send_to_kindle, h]

/-- Witness for C9 at concrete failing and succeeding sessions. -/
theorem delivery_boolean_outcome_witness :
    send_to_kindle failSend cfgW "h" "Jan" "01-01-2026" = false ∧
    send_to_kindle okSend cfgW "h" "Jan" "01-01-2026" = true ∧
    runDigest (fun _ => none) [] failSend cfgW "Jan" "01-01-2026"
      = runDigest (fun _ => none) [("BBC News", Except.error "boom", 5)] failSend cfgW
          "Jan" "01-01-2026" := by
  refine ⟨?_, ?_, ?_⟩
  · exact (delivery_boolean_outcome failSend cfgW "h" "Jan" "01-01-2026" (fun _ => none)
      [] [] (Except.error SmtpFailure.authFailure)).1 SmtpFailure.authFailure rfl
  · exact (delivery_boolean_outcome okSend cfgW "h" "Jan" "01-01-2026" (fun _ => none)
      [] [] (Except.ok ())).2.1 rfl
  · exact (delivery_boolean_outcome failSend cfgW "h" "Jan" "01-01-2026" (fun _ => none)
      [] [("BBC News", Except.error "boom", 5)]
      (Except.error SmtpFailure.authFailure)).2.2 (fun _ => rfl)

/-- C10: In the inline variant the displayed summary is the tag-stripped
summary, additionally truncated to its first 500 characters plus `'...'`
exactly when the stripped summary exceeds 500 characters (giving a
503-character display), and shown unchanged otherwise. -/
theorem inline_summary_truncation (a : InlineArticle) :
    (pyLen (stripTags a.summary) ≤ 500 →
      inlineDisplaySummary a = stripTags a.summary) ∧
    (500 < pyLen (stripTags a.summary) →
      inlineDisplaySummary a = pySlice (stripTags a.summary) 500 ++ "..." ∧
      pyLen (pySlice (stripTags a.summary) 500) = 500 ∧
      pyLen (inlineDisplaySummary a) = 503) := by
  constructor
  · intro h
    have h2 : ¬ (pyLen (stripTags a.summary) > 500) := by omega
    simp [inlineDisplaySummary, h2]
  · intro h
    have heq : inlineDisplaySummary a = pySlice (stripTags a.summary) 500 ++ "..." := by
      simp [inlineDisplaySummary, h]
    have htake : pyLen (pySlice (stripTags a.summary) 500) = 500 := by
      have h2 : 500 < (stripTags a.summary).data.length := h
      have h3 : (stripTags a.summary).length = (stripTags a.summary).data.length := rfl
      simp [pySlice, pyLen, List.length_take]
      omega
    refine ⟨heq, htake, ?_⟩
    rw [heq, pyLen_append, htake]
    rfl

/-- Witness for C10 at a short and a 501-character summary. -/
theorem inline_summary_truncation_witness :
    inlineDisplaySummary shortInlineArticle = stripTags shortInlineArticle.summary ∧
    inlineDisplaySummary longInlineArticle
      = pySlice (stripTags longInlineArticle.summary) 500 ++ "..." ∧
    pyLen (inlineDisplaySummary longInlineArticle) = 503 := by
  have hs : stripTags longInlineArticle.summary = longInlineArticle.summary := by
    apply stripTags_eq_self_of_no_lt
    intro c hc
    have hc2 : c ∈ List.replicate 501 'a' := hc
    rw [List.eq_of_mem_replicate hc2]
    decide
  have hlong : 500 < pyLen (stripTags longInlineArticle.summary) := by
    rw [hs]
    show 500 < (List.replicate 501 'a').length
    rw [List.length_replicate]
    omega
  refine ⟨?_, ?_, ?_⟩
  · exact (inline_summary_truncation shortInlineArticle).1 (by decide)
  · exact ((inline_summary_truncation longInlineArticle).2 hlong).1
  · exact ((inline_summary_truncation longInlineArticle).2 hlong).2.2
